import Mathlib

/- Verification of the effect-chain logic of src/app/page.tsx (the
   "Ultra Pro Voice Changer" page).  The embedding below translates the
   preset catalog, the audio-graph construction (buildGraph), the
   settings-update effect (applySettings, the useEffect keyed on
   settings), the unmount cleanup (teardown), file-source attachment
   (handleFileSelect), preset application (applyPreset), the
   single-field settings update (setSetting) and the recording filename
   into Lean.  JavaScript numbers are modelled as rationals. -/

namespace UltraVoice

/-- EffectSettings record of page.tsx: the nine numeric effect
parameters held as the page's settings state. -/
structure EffectSettings where
  pitchSemitones : ℚ
  reverbWet : ℚ
  distortion : ℚ
  delayTime : ℚ
  delayFeedback : ℚ
  eqLow : ℚ
  eqMid : ℚ
  eqHigh : ℚ
  ringModHz : ℚ
  deriving DecidableEq

/-- The seven preset identifiers (type PresetId of page.tsx). -/
inductive PresetId
  | clean
  | deep
  | chipmunk
  | robot
  | radio
  | alien
  | echo
  deriving DecidableEq

/-- PRESETS catalog of page.tsx (lines 22-100), field for field. -/
def PRESETS : PresetId → EffectSettings
  | .clean =>
    { pitchSemitones := 0, reverbWet := 0.05, distortion := 0.0,
      delayTime := 0.0, delayFeedback := 0.0,
      eqLow := 0, eqMid := 0, eqHigh := 0, ringModHz := 0 }
  | .deep =>
    { pitchSemitones := -6, reverbWet := 0.1, distortion := 0.05,
      delayTime := 0.0, delayFeedback := 0.0,
      eqLow := 3, eqMid := -2, eqHigh := -1, ringModHz := 0 }
  | .chipmunk =>
    { pitchSemitones := 7, reverbWet := 0.12, distortion := 0.0,
      delayTime := 0.12, delayFeedback := 0.25,
      eqLow := -2, eqMid := 0, eqHigh := 2, ringModHz := 0 }
  | .robot =>
    { pitchSemitones := 0, reverbWet := 0.08, distortion := 0.35,
      delayTime := 0, delayFeedback := 0,
      eqLow := 0, eqMid := 3, eqHigh := -2, ringModHz := 90 }
  | .radio =>
    { pitchSemitones := -1, reverbWet := 0.03, distortion := 0.15,
      delayTime := 0, delayFeedback := 0,
      eqLow := -6, eqMid := 4, eqHigh := -4, ringModHz := 0 }
  | .alien =>
    { pitchSemitones := -12, reverbWet := 0.18, distortion := 0.22,
      delayTime := 0.18, delayFeedback := 0.3,
      eqLow := 2, eqMid := -4, eqHigh := 3, ringModHz := 30 }
  | .echo =>
    { pitchSemitones := 0, reverbWet := 0.2, distortion := 0.0,
      delayTime := 0.28, delayFeedback := 0.45,
      eqLow := 0, eqMid := 0, eqHigh := 1, ringModHz := 0 }

/-- String key of each preset, as used for the JavaScript object PRESETS. -/
def presetName : PresetId → String
  | .clean => "clean"
  | .deep => "deep"
  | .chipmunk => "chipmunk"
  | .robot => "robot"
  | .radio => "radio"
  | .alien => "alien"
  | .echo => "echo"

/-- The catalog viewed as the JavaScript object: an association list from
preset name to settings record, in declaration order. -/
def presetCatalog : List (String × EffectSettings) :=
  [ (presetName .clean, PRESETS .clean),
    (presetName .deep, PRESETS .deep),
    (presetName .chipmunk, PRESETS .chipmunk),
    (presetName .robot, PRESETS .robot),
    (presetName .radio, PRESETS .radio),
    (presetName .alien, PRESETS .alien),
    (presetName .echo, PRESETS .echo) ]

/-- The audio nodes of the page: the effect stages constructed by
buildGraph, the two source nodes, the master destination of the audio
library (Tone.Destination, which preexists the graph) and the native
media-stream destination used as the recording tap. -/
inductive Node
  | pitchShift
  | distortion
  | delay
  | reverb
  | eq3
  | finalGain
  | analyser
  | ringOsc
  | ringGain
  | destination
  | mediaDest
  | filePlayer
  | inputNode
  deriving DecidableEq

/-- Transport state of a Tone source node: the string states "started"
and "stopped" reported by the library. -/
inductive ToneState
  | started
  | stopped
  deriving DecidableEq

/-- Start or stop call issued to the ring oscillator. -/
inductive RingAction
  | start
  | stop
  deriving DecidableEq

/-- Mutable state of the constructed audio graph: each stage's
parameters, the ring oscillator's transport state (an Option, since the
settings effect also guards against a missing state with the falsy
check), and the graph topology (constructed nodes and directed audio
connections, in the order the code issues them). -/
structure GraphState where
  pitch : ℚ
  distortionAmount : ℚ
  delayTime : ℚ
  delayFeedback : ℚ
  reverbWet : ℚ
  eqLow : ℚ
  eqMid : ℚ
  eqHigh : ℚ
  ringFreq : ℚ
  ringGainValue : ℚ
  ringState : Option ToneState
  finalGainValue : ℚ
  nodes : List Node
  edges : List (Node × Node)
  deriving DecidableEq

/-- Nodes constructed by buildGraph, in construction order (the media
destination is created last, from the raw context). -/
def constructedNodes : List Node :=
  [ Node.pitchShift, Node.distortion, Node.delay, Node.reverb, Node.eq3,
    Node.finalGain, Node.analyser, Node.ringOsc, Node.ringGain,
    Node.mediaDest ]

/-- Directed audio connections issued by buildGraph, in source order.
The first edge comes from the toDestination() call on the pitch shifter
at its construction (line 140); the last edge connects the master
destination's internal output node to the media-stream destination
(lines 174-180). -/
def buildEdges : List (Node × Node) :=
  [ (Node.pitchShift, Node.destination),
    (Node.ringOsc, Node.ringGain),
    (Node.pitchShift, Node.distortion),
    (Node.ringGain, Node.distortion),
    (Node.distortion, Node.delay),
    (Node.delay, Node.reverb),
    (Node.reverb, Node.eq3),
    (Node.eq3, Node.finalGain),
    (Node.finalGain, Node.analyser),
    (Node.finalGain, Node.destination),
    (Node.destination, Node.mediaDest) ]

/-- buildGraph of page.tsx (lines 137-181): constructs each stage from
the given settings and wires the topology.  The oscillator frequency is
initialised with the JavaScript expression settings.ringModHz || 1,
which yields 1 when ringModHz is 0; the oscillator is created but not
started, so its transport state is stopped. -/
def buildGraph (s : EffectSettings) : GraphState :=
  { pitch := s.pitchSemitones,
    distortionAmount := s.distortion,
    delayTime := s.delayTime,
    delayFeedback := s.delayFeedback,
    reverbWet := s.reverbWet,
    eqLow := s.eqLow,
    eqMid := s.eqMid,
    eqHigh := s.eqHigh,
    ringFreq := if s.ringModHz = 0 then 1 else s.ringModHz,
    ringGainValue := if 0 < s.ringModHz then 0.5 else 0,
    ringState := some ToneState.stopped,
    finalGainValue := 0.9,
    nodes := constructedNodes,
    edges := buildEdges }

/-- The settings-update effect of page.tsx (lines 204-222), called here
applySettings after the spec's operation name.  It writes each stage's
parameters in place, always sets the oscillator frequency to
Math.max(0.0001, ringModHz), then branches on ringModHz: when positive
it starts the oscillator unless its state is already started (the code
guard is falsy-or-stopped) and sets the mix gain to 0.5; when zero or
negative it sets the mix gain to 0 and stops the oscillator if started.
The returned list records the start and stop calls issued. -/
def applySettingsAct (s : EffectSettings) (g : GraphState) :
    GraphState × List RingAction :=
  let g1 : GraphState :=
    { g with
      pitch := s.pitchSemitones,
      distortionAmount := s.distortion,
      delayTime := s.delayTime,
      delayFeedback := s.delayFeedback,
      reverbWet := s.reverbWet,
      eqLow := s.eqLow,
      eqMid := s.eqMid,
      eqHigh := s.eqHigh,
      ringFreq := max 0.0001 s.ringModHz }
  if 0 < s.ringModHz then
    if g1.ringState = none ∨ g1.ringState = some ToneState.stopped then
      ({ g1 with ringState := some ToneState.started, ringGainValue := 0.5 },
        [RingAction.start])
    else
      ({ g1 with ringGainValue := 0.5 }, [])
  else
    if g1.ringState = some ToneState.started then
      ({ g1 with ringGainValue := 0, ringState := some ToneState.stopped },
        [RingAction.stop])
    else
      ({ g1 with ringGainValue := 0 }, [])

/-- Resulting graph state of the settings-update effect. -/
def applySettings (s : EffectSettings) (g : GraphState) : GraphState :=
  (applySettingsAct s g).1

/-- applyPreset of page.tsx (lines 268-271): stores the catalog entry as
the settings state, which triggers the settings effect on the graph. -/
def applyPreset (id : PresetId) (g : GraphState) : GraphState :=
  applySettings (PRESETS id) g

/-- applyPreset at the JavaScript level: the stored settings value is
the member lookup PRESETS[id] on the catalog object, which is undefined
(modelled none) for a key not in the catalog; no error is raised. -/
def applyPresetJS (id : String) : Option EffectSettings :=
  presetCatalog.lookup id

/-- Reading back each stage's parameter corresponding to a settings
field: the ringModHz field reads back from the ring oscillator's
frequency parameter. -/
def readBackSettings (g : GraphState) : EffectSettings :=
  { pitchSemitones := g.pitch,
    reverbWet := g.reverbWet,
    distortion := g.distortionAmount,
    delayTime := g.delayTime,
    delayFeedback := g.delayFeedback,
    eqLow := g.eqLow,
    eqMid := g.eqMid,
    eqHigh := g.eqHigh,
    ringModHz := g.ringFreq }

/-- Disposal order of the unmount cleanup of page.tsx (lines 185-199):
file player, microphone input, then every effect stage. -/
def teardownOrder : List Node :=
  [ Node.filePlayer, Node.inputNode, Node.pitchShift, Node.ringOsc,
    Node.ringGain, Node.distortion, Node.delay, Node.reverb, Node.eq3,
    Node.analyser, Node.finalGain ]

/-- Body of the cleanup's single try block: dispose the nodes in order;
a throwing dispose aborts the remaining calls and control transfers to
the shared catch.  Returns the disposals that completed and whether an
error was caught. -/
def disposeAll (throws : Node → Bool) : List Node → List Node × Bool
  | [] => ([], false)
  | n :: rest =>
    if throws n then ([], true)
    else
      let r := disposeAll throws rest
      (n :: r.1, r.2)

/-- teardown: the cleanup function returned by the build effect.  The
catch clause is empty, so a caught error is swallowed and teardown
returns normally either way. -/
def teardown (throws : Node → Bool) : List Node × Bool :=
  disposeAll throws teardownOrder

/-- A file player node: its identity and the construction options that
matter here (autostart and loop are both passed false). -/
structure FilePlayer where
  id : Nat
  autostart : Bool
  loop : Bool
  deriving DecidableEq

/-- Calls issued by handleFileSelect, in order. -/
inductive SourceAction
  | stopPlayer (id : Nat)
  | disconnectPlayer (id : Nat)
  | disposePlayer (id : Nat)
  | connectPlayer (id : Nat) (target : Node)
  deriving DecidableEq

/-- handleFileSelect of page.tsx (lines 289-300): if a previous file
player exists it is stopped, disconnected and disposed, then the new
player is created with autostart false and connected to the pitch
shifter (the graph's entry node).  Returns the calls issued and the new
player stored in the ref. -/
def handleFileSelect (newId : Nat) (prev : Option FilePlayer) :
    List SourceAction × FilePlayer :=
  let cleanup : List SourceAction :=
    match prev with
    | none => []
    | some p =>
      [ SourceAction.stopPlayer p.id, SourceAction.disconnectPlayer p.id,
        SourceAction.disposePlayer p.id ]
  (cleanup ++ [SourceAction.connectPlayer newId Node.pitchShift],
    { id := newId, autostart := false, loop := false })

/-- Keys of the EffectSettings record, for the computed-key update of
setSetting. -/
inductive SettingKey
  | pitchSemitones
  | reverbWet
  | distortion
  | delayTime
  | delayFeedback
  | eqLow
  | eqMid
  | eqHigh
  | ringModHz
  deriving DecidableEq

/-- Field projection of an EffectSettings record by key. -/
def getSetting (s : EffectSettings) : SettingKey → ℚ
  | .pitchSemitones => s.pitchSemitones
  | .reverbWet => s.reverbWet
  | .distortion => s.distortion
  | .delayTime => s.delayTime
  | .delayFeedback => s.delayFeedback
  | .eqLow => s.eqLow
  | .eqMid => s.eqMid
  | .eqHigh => s.eqHigh
  | .ringModHz => s.ringModHz

/-- setSetting of page.tsx (lines 344-346): the spread-merge update
that replaces the whole settings record, changing exactly the given
key. -/
def setSetting (k : SettingKey) (v : ℚ) (s : EffectSettings) :
    EffectSettings :=
  match k with
  | .pitchSemitones => { s with pitchSemitones := v }
  | .reverbWet => { s with reverbWet := v }
  | .distortion => { s with distortion := v }
  | .delayTime => { s with delayTime := v }
  | .delayFeedback => { s with delayFeedback := v }
  | .eqLow => { s with eqLow := v }
  | .eqMid => { s with eqMid := v }
  | .eqHigh => { s with eqHigh := v }
  | .ringModHz => { s with ringModHz := v }

/-- Character replacement of the regex [:.] with a dash, applied to
every character of the timestamp. -/
def sanitizeChar (c : Char) : Char :=
  if c = ':' ∨ c = '.' then '-' else c

/-- The timestamp with every colon and dot replaced by a dash
(the global regex replace in startRecording). -/
def sanitizeTimestamp (ts : String) : String :=
  ⟨ts.data.map sanitizeChar⟩

/-- Download filename built by the recorder's onstop handler in
startRecording (page.tsx lines 323-334): the webm extension is a
string literal, independent of the recorder's actual container. -/
def recordingFilename (ts : String) : String :=
  "ultra-voice-" ++ sanitizeTimestamp ts ++ ".webm"

/-- Mime type the onstop handler labels the blob with, also a literal. -/
def recordingBlobType : String := "audio/webm"

/-- Modelled from the spec: the filename pattern section 6 describes,
with the extension taken from the host platform's default recording
container for the tapped stream.  Used only to compare the code's
filename against the spec's words. -/
def specRecordingFilename (ts ext : String) : String :=
  "ultra-voice-" ++ sanitizeTimestamp ts ++ "." ++ ext

/-- A concrete ISO 8601 timestamp used in concrete instances below. -/
def sampleTs : String := "2026-10-11T12:00:00.000Z"

/-- A preset key that is not in the catalog, for the lookup of
applyPresetJS at an unknown id. -/
def unknownPresetId : String := "spooky"

/-- The settings effect writes every stage parameter from the settings
record and always writes the oscillator frequency as
Math.max(0.0001, ringModHz), in every branch. -/
theorem applySettingsAct_fst_params (s : EffectSettings) (g : GraphState) :
    (applySettingsAct s g).1.pitch = s.pitchSemitones ∧
    (applySettingsAct s g).1.distortionAmount = s.distortion ∧
    (applySettingsAct s g).1.delayTime = s.delayTime ∧
    (applySettingsAct s g).1.delayFeedback = s.delayFeedback ∧
    (applySettingsAct s g).1.reverbWet = s.reverbWet ∧
    (applySettingsAct s g).1.eqLow = s.eqLow ∧
    (applySettingsAct s g).1.eqMid = s.eqMid ∧
    (applySettingsAct s g).1.eqHigh = s.eqHigh ∧
    (applySettingsAct s g).1.ringFreq = max 0.0001 s.ringModHz := by
  simp only [applySettingsAct]
  split <;> split <;> simp

/-- The settings effect leaves the topology fields and the final gain
untouched in every branch. -/
theorem applySettingsAct_frame (s : EffectSettings) (g : GraphState) :
    (applySettingsAct s g).1.edges = g.edges ∧
    (applySettingsAct s g).1.nodes = g.nodes ∧
    (applySettingsAct s g).1.finalGainValue = g.finalGainValue := by
  simp only [applySettingsAct]
  split <;> split <;> simp

/-- Positive ringModHz branch of the settings effect: mix gain 0.5,
oscillator started, and a start call issued exactly when the oscillator
was not already in the started state. -/
theorem applySettingsAct_ring_pos (s : EffectSettings) (g : GraphState)
    (h : 0 < s.ringModHz) :
    (applySettingsAct s g).1.ringGainValue = 0.5 ∧
    (applySettingsAct s g).1.ringState = some ToneState.started ∧
    (applySettingsAct s g).2 =
      (if g.ringState = some ToneState.started then [] else [RingAction.start]) := by
  rcases hg : g.ringState with _ | st
  · simp [applySettingsAct, hg, h]
  · cases st <;> simp [applySettingsAct, hg, h]

/-- Zero ringModHz branch of the settings effect, for an oscillator
whose transport state is present: mix gain 0, oscillator stopped, and a
stop call issued exactly when it was running. -/
theorem applySettingsAct_ring_zero (s : EffectSettings) (g : GraphState)
    (h : s.ringModHz = 0) (hg : g.ringState ≠ none) :
    (applySettingsAct s g).1.ringGainValue = 0 ∧
    (applySettingsAct s g).1.ringState = some ToneState.stopped ∧
    (applySettingsAct s g).2 =
      (if g.ringState = some ToneState.started then [RingAction.stop] else []) := by
  rcases hgs : g.ringState with _ | st
  · exact absurd hgs hg
  · cases st <;> simp [applySettingsAct, hgs, h]

/-- Every catalog preset has ringModHz either zero or at least the
0.0001 floor of the settings effect. -/
theorem preset_ringModHz_cases (id : PresetId) :
    (PRESETS id).ringModHz = 0 ∨ 0.0001 ≤ (PRESETS id).ringModHz := by
  cases id <;> norm_num [PRESETS]

/-- The single try block of the cleanup: the completed disposals are
exactly the longest clean run of the disposal order, and an error is
caught exactly when some disposal throws. -/
theorem disposeAll_eq (throws : Node → Bool) (l : List Node) :
    (disposeAll throws l).1 = l.takeWhile (fun n => !throws n) ∧
    ((disposeAll throws l).2 = true ↔ ∃ n ∈ l, throws n = true) := by
  induction l with
  | nil => simp [disposeAll]
  | cons n rest ih =>
    cases h : throws n
    · simp [disposeAll, h, List.takeWhile_cons, ih.1, ih.2]
    · simp [disposeAll, h, List.takeWhile_cons]

/-- C1: evaluating buildGraph at the initial settings shows the wiring
is the fixed chain of the claim plus a stray direct connection from the
pitch shifter to the audible destination, issued by the toDestination()
call at the pitch shifter's construction; the recording tap is fed from
the master destination node, not from the final gain.  So the pitch
shifter does not connect only to distortion, contradicting the claim
and the code's own chain comment. -/
theorem buildGraph_pitch_direct_to_destination :
    (buildGraph (PRESETS PresetId.clean)).edges = buildEdges ∧
    (Node.pitchShift, Node.destination) ∈
      (buildGraph (PRESETS PresetId.clean)).edges ∧
    (Node.pitchShift, Node.distortion) ∈
      (buildGraph (PRESETS PresetId.clean)).edges ∧
    (Node.finalGain, Node.mediaDest) ∉
      (buildGraph (PRESETS PresetId.clean)).edges ∧
    (Node.destination, Node.mediaDest) ∈
      (buildGraph (PRESETS PresetId.clean)).edges := by
  decide

/-- C4: the settings effect never changes the set of constructed nodes
nor the list of audio connections (the topology after the call equals
the topology before it); only per-node parameters and the oscillator's
transport state are mutated. -/
theorem applySettings_topology_invariant (s : EffectSettings)
    (g : GraphState) :
    (applySettings s g).edges = g.edges ∧
    (applySettings s g).nodes = g.nodes :=
  ⟨(applySettingsAct_frame s g).1, (applySettingsAct_frame s g).2.1⟩

/-- C5 counterexample: with a disposal fault injected at the pitch
shifter, the ring oscillator (which does not throw and comes later in
the disposal order) is not disposed, refuting the claim that every
remaining stage is still disposed when one stage's disposal throws. -/
theorem teardown_skips_rest_after_throw :
    (fun n => n == Node.pitchShift) Node.ringOsc = false ∧
    Node.ringOsc ∈ teardownOrder ∧
    Node.ringOsc ∉ (teardown (fun n => n == Node.pitchShift)).1 ∧
    (teardown (fun n => n == Node.pitchShift)).2 = true := by
  decide

/-- C5 (amended): teardown runs all disposal calls inside one shared
try block, so any disposal error is swallowed and teardown returns
normally, but the disposals that complete are exactly the longest run
of the disposal order with no throwing node: the stages after the first
throwing one are skipped, not disposed. -/
theorem teardown_single_guard (throws : Node → Bool) :
    (teardown throws).1 = teardownOrder.takeWhile (fun n => !throws n) ∧
    ((teardown throws).2 = true ↔ ∃ n ∈ teardownOrder, throws n = true) :=
  disposeAll_eq throws teardownOrder

/-- C7 counterexample: at an id absent from the catalog, the JavaScript
member lookup stores undefined (modelled none) and raises no error, so
applyPreset does not fail with InvalidPreset. -/
theorem applyPresetJS_unknown_stores_undefined :
    applyPresetJS unknownPresetId = none ∧
    (presetCatalog.all fun e => e.1 != unknownPresetId) = true := by
  decide

/-- C7 (amended): applyPreset's argument ranges over the catalog's own
seven ids, so the lookup always succeeds and the preset's full settings
record is stored; there is no runtime InvalidPreset check, an unknown
id being unrepresentable at the type level. -/
theorem applyPresetJS_known (id : PresetId) :
    applyPresetJS (presetName id) = some (PRESETS id) := by
  cases id <;> rfl

/-- C10: the final output gain node is created with gain 0.9 and the
settings effect leaves it unchanged for every settings value. -/
theorem finalGain_created_and_untouched (s0 s : EffectSettings)
    (g : GraphState) :
    (buildGraph s0).finalGainValue = 0.9 ∧
    (applySettings s g).finalGainValue = g.finalGainValue :=
  ⟨rfl, (applySettingsAct_frame s g).2.2⟩

/-- C9 counterexample: on a host whose default recording container is
mp4, the claim's filename would end in mp4, but the onstop handler
always produces the webm extension: at the sample timestamp the code's
filename differs from the claimed pattern instantiated with mp4. -/
theorem recordingFilename_ignores_container :
    recordingFilename sampleTs = "ultra-voice-2026-10-11T12-00-00-000Z.webm" ∧
    recordingFilename sampleTs ≠ specRecordingFilename sampleTs "mp4" := by
  decide

/-- C9 (amended): every recording is saved as ultra-voice-<ts>.webm,
with <ts> the ISO timestamp with every colon and dot replaced by a
dash; the extension is the string literal webm (and the blob is
labelled audio/webm) regardless of the host platform's default
recording container, so the code's filename matches the spec's pattern
exactly when that container's extension is webm. -/
theorem recordingFilename_fixed_webm (ts ext : String) :
    recordingFilename ts = specRecordingFilename ts ext ↔ ext = "webm" := by
  unfold recordingFilename specRecordingFilename
  constructor
  · intro h
    have hd := congrArg String.data h
    simp only [String.data_append] at hd
    rw [List.append_assoc, List.append_assoc] at hd
    have h2 := List.append_cancel_left (List.append_cancel_left hd)
    have h4 : ext.data = ['w', 'e', 'b', 'm'] := by simpa using h2.symm
    exact String.ext h4
  · intro h
    subst h
    rw [String.append_assoc ("ultra-voice-" ++ sanitizeTimestamp ts)]
    rfl

/-- C2: ring-modulation rule of the settings effect: for every settings
value applied to a graph whose oscillator has a transport state, a
positive ringModHz yields mix gain 0.5 and a started oscillator at
frequency max(ringModHz, 0.0001), with a start call issued only when it
was not already running; ringModHz equal to 0 yields mix gain 0 and a
stopped oscillator, with a stop call issued only when it was running. -/
theorem applySettings_ringmod_rule (s : EffectSettings) (g : GraphState)
    (hg : g.ringState ≠ none) :
    (0 < s.ringModHz →
      (applySettings s g).ringGainValue = 0.5 ∧
      (applySettings s g).ringState = some ToneState.started ∧
      (applySettings s g).ringFreq = max s.ringModHz 0.0001 ∧
      (applySettingsAct s g).2 =
        (if g.ringState = some ToneState.started then []
         else [RingAction.start])) ∧
    (s.ringModHz = 0 →
      (applySettings s g).ringGainValue = 0 ∧
      (applySettings s g).ringState = some ToneState.stopped ∧
      (applySettingsAct s g).2 =
        (if g.ringState = some ToneState.started then [RingAction.stop]
         else [])) := by
  constructor
  · intro h
    obtain ⟨hgain, hstate, hact⟩ := applySettingsAct_ring_pos s g h
    have hfreq := (applySettingsAct_fst_params s g).2.2.2.2.2.2.2.2
    exact ⟨hgain, hstate, hfreq.trans (max_comm 0.0001 s.ringModHz), hact⟩
  · intro h
    exact applySettingsAct_ring_zero s g h hg

/-- Witness for the ring-modulation rule: the robot settings applied to
the freshly built graph of the clean preset. -/
theorem applySettings_ringmod_rule_witness :
    (buildGraph (PRESETS PresetId.clean)).ringState ≠ none ∧
    ((0 < (PRESETS PresetId.robot).ringModHz →
      (applySettings (PRESETS PresetId.robot)
        (buildGraph (PRESETS PresetId.clean))).ringGainValue = 0.5 ∧
      (applySettings (PRESETS PresetId.robot)
        (buildGraph (PRESETS PresetId.clean))).ringState =
          some ToneState.started ∧
      (applySettings (PRESETS PresetId.robot)
        (buildGraph (PRESETS PresetId.clean))).ringFreq =
          max (PRESETS PresetId.robot).ringModHz 0.0001 ∧
      (applySettingsAct (PRESETS PresetId.robot)
        (buildGraph (PRESETS PresetId.clean))).2 =
        (if (buildGraph (PRESETS PresetId.clean)).ringState =
            some ToneState.started then []
         else [RingAction.start])) ∧
    ((PRESETS PresetId.robot).ringModHz = 0 →
      (applySettings (PRESETS PresetId.robot)
        (buildGraph (PRESETS PresetId.clean))).ringGainValue = 0 ∧
      (applySettings (PRESETS PresetId.robot)
        (buildGraph (PRESETS PresetId.clean))).ringState =
          some ToneState.stopped ∧
      (applySettingsAct (PRESETS PresetId.robot)
        (buildGraph (PRESETS PresetId.clean))).2 =
        (if (buildGraph (PRESETS PresetId.clean)).ringState =
            some ToneState.started then [RingAction.stop]
         else []))) :=
  ⟨by decide,
    applySettings_ringmod_rule (PRESETS PresetId.robot)
      (buildGraph (PRESETS PresetId.clean)) (by decide)⟩

/-- C3 counterexample: applying the clean preset (ringModHz 0) and
reading back the oscillator's frequency parameter yields the 0.0001
floor, not clean's ringModHz value 0, so the readback is not exactly
the preset's field values. -/
theorem applyPreset_readback_cex :
    readBackSettings
        (applyPreset PresetId.clean (buildGraph (PRESETS PresetId.robot))) ≠
      PRESETS PresetId.clean := by
  intro h
  have h2 := congrArg EffectSettings.ringModHz h
  have h9 := (applySettingsAct_fst_params (PRESETS PresetId.clean)
    (buildGraph (PRESETS PresetId.robot))).2.2.2.2.2.2.2.2
  simp only [readBackSettings, applyPreset, applySettings] at h2
  rw [h9] at h2
  norm_num [PRESETS] at h2

/-- C3 (amended): for every preset, applying it and reading back the
node parameters yields exactly the preset's field values on the eight
chain parameters, while the oscillator frequency reads
max(0.0001, ringModHz): equal to ringModHz whenever it is positive in
the catalog, and the 0.0001 floor (with mix gain 0 and a stopped
oscillator) when the preset disables ring modulation; the robot preset
is the claimed record, and applying it sets the oscillator to 90 Hz and
started, the mix gain to 0.5 and the distortion amount to 0.35. -/
theorem applyPreset_catalog_readback (id : PresetId) (g : GraphState)
    (hg : g.ringState ≠ none) :
    readBackSettings (applyPreset id g) =
      { PRESETS id with ringModHz := max 0.0001 (PRESETS id).ringModHz } ∧
    (0 < (PRESETS id).ringModHz →
      (applyPreset id g).ringFreq = (PRESETS id).ringModHz ∧
      (applyPreset id g).ringGainValue = 0.5 ∧
      (applyPreset id g).ringState = some ToneState.started) ∧
    ((PRESETS id).ringModHz = 0 →
      (applyPreset id g).ringGainValue = 0 ∧
      (applyPreset id g).ringState = some ToneState.stopped) ∧
    PRESETS PresetId.robot =
      { pitchSemitones := 0, reverbWet := 0.08, distortion := 0.35,
        delayTime := 0, delayFeedback := 0, eqLow := 0, eqMid := 3,
        eqHigh := -2, ringModHz := 90 } ∧
    (applyPreset PresetId.robot g).ringFreq = 90 ∧
    (applyPreset PresetId.robot g).ringState = some ToneState.started ∧
    (applyPreset PresetId.robot g).ringGainValue = 0.5 ∧
    (applyPreset PresetId.robot g).distortionAmount = 0.35 := by
  obtain ⟨h1, h2, h3, h4, h5, h6, h7, h8, h9⟩ :=
    applySettingsAct_fst_params (PRESETS id) g
  have hrpos : 0 < (PRESETS PresetId.robot).ringModHz := by
    norm_num [PRESETS]
  have hrfloor : 0.0001 ≤ (PRESETS PresetId.robot).ringModHz := by
    norm_num [PRESETS]
  obtain ⟨rg, rs, _⟩ :=
    applySettingsAct_ring_pos (PRESETS PresetId.robot) g hrpos
  have hr9 := (applySettingsAct_fst_params
    (PRESETS PresetId.robot) g).2.2.2.2.2.2.2.2
  have hr2 := (applySettingsAct_fst_params (PRESETS PresetId.robot) g).2.1
  refine ⟨?_, ?_, ?_, rfl, ?_, rs, rg, hr2⟩
  · simp only [readBackSettings, applyPreset, applySettings,
      EffectSettings.mk.injEq]
    exact ⟨h1, h5, h2, h3, h4, h6, h7, h8, h9⟩
  · intro hp
    obtain ⟨bg, bs, _⟩ := applySettingsAct_ring_pos (PRESETS id) g hp
    rcases preset_ringModHz_cases id with hz0 | hfl
    · rw [hz0] at hp
      exact absurd hp (lt_irrefl 0)
    · exact ⟨h9.trans (max_eq_right hfl), bg, bs⟩
  · intro hz
    obtain ⟨zg, zs, _⟩ := applySettingsAct_ring_zero (PRESETS id) g hz hg
    exact ⟨zg, zs⟩
  · exact hr9.trans (max_eq_right hrfloor)

/-- Witness for the amended preset readback: the robot preset applied
to the freshly built graph of the clean preset. -/
theorem applyPreset_catalog_readback_witness :
    (buildGraph (PRESETS PresetId.clean)).ringState ≠ none ∧
    (readBackSettings
        (applyPreset PresetId.robot (buildGraph (PRESETS PresetId.clean))) =
      { PRESETS PresetId.robot with
        ringModHz := max 0.0001 (PRESETS PresetId.robot).ringModHz } ∧
    (0 < (PRESETS PresetId.robot).ringModHz →
      (applyPreset PresetId.robot
        (buildGraph (PRESETS PresetId.clean))).ringFreq =
          (PRESETS PresetId.robot).ringModHz ∧
      (applyPreset PresetId.robot
        (buildGraph (PRESETS PresetId.clean))).ringGainValue = 0.5 ∧
      (applyPreset PresetId.robot
        (buildGraph (PRESETS PresetId.clean))).ringState =
          some ToneState.started) ∧
    ((PRESETS PresetId.robot).ringModHz = 0 →
      (applyPreset PresetId.robot
        (buildGraph (PRESETS PresetId.clean))).ringGainValue = 0 ∧
      (applyPreset PresetId.robot
        (buildGraph (PRESETS PresetId.clean))).ringState =
          some ToneState.stopped) ∧
    PRESETS PresetId.robot =
      { pitchSemitones := 0, reverbWet := 0.08, distortion := 0.35,
        delayTime := 0, delayFeedback := 0, eqLow := 0, eqMid := 3,
        eqHigh := -2, ringModHz := 90 } ∧
    (applyPreset PresetId.robot
      (buildGraph (PRESETS PresetId.clean))).ringFreq = 90 ∧
    (applyPreset PresetId.robot
      (buildGraph (PRESETS PresetId.clean))).ringState =
        some ToneState.started ∧
    (applyPreset PresetId.robot
      (buildGraph (PRESETS PresetId.clean))).ringGainValue = 0.5 ∧
    (applyPreset PresetId.robot
      (buildGraph (PRESETS PresetId.clean))).distortionAmount = 0.35) :=
  ⟨by decide,
    applyPreset_catalog_readback PresetId.robot
      (buildGraph (PRESETS PresetId.clean)) (by decide)⟩

/-- C6: handleFileSelect with a previously attached file player first
stops, disconnects and disposes it, in that order and exactly once
each, before the new player is created; the new player is connected to
the pitch shifter (the graph's entry node) and is created with
autostart false, so playback does not start automatically. -/
theorem handleFileSelect_replaces_previous (newId : Nat)
    (prev : Option FilePlayer) (p : FilePlayer) (h : prev = some p) :
    (handleFileSelect newId prev).1 =
      [ SourceAction.stopPlayer p.id, SourceAction.disconnectPlayer p.id,
        SourceAction.disposePlayer p.id,
        SourceAction.connectPlayer newId Node.pitchShift ] ∧
    (handleFileSelect newId prev).1.count
      (SourceAction.disposePlayer p.id) = 1 ∧
    (handleFileSelect newId prev).2.autostart = false := by
  subst h
  refine ⟨rfl, ?_, rfl⟩
  simp [handleFileSelect, List.count_cons, List.count_nil, beq_iff_eq]

/-- Witness for handleFileSelect: replacing player 0 with player 1. -/
theorem handleFileSelect_replaces_previous_witness :
    some (FilePlayer.mk 0 false false) = some (FilePlayer.mk 0 false false) ∧
    ((handleFileSelect 1 (some (FilePlayer.mk 0 false false))).1 =
      [ SourceAction.stopPlayer 0, SourceAction.disconnectPlayer 0,
        SourceAction.disposePlayer 0,
        SourceAction.connectPlayer 1 Node.pitchShift ] ∧
    (handleFileSelect 1 (some (FilePlayer.mk 0 false false))).1.count
      (SourceAction.disposePlayer 0) = 1 ∧
    (handleFileSelect 1 (some (FilePlayer.mk 0 false false))).2.autostart =
      false) :=
  ⟨rfl,
    handleFileSelect_replaces_previous 1 (some (FilePlayer.mk 0 false false))
      (FilePlayer.mk 0 false false) rfl⟩

/-- C8: the settings state is always the complete nine-field record:
the single-field update of setSetting produces a record equal to the
new value on the updated key and equal to the previous record on every
other key. -/
theorem setSetting_complete_update (k k2 : SettingKey) (v : ℚ)
    (s : EffectSettings) (h : k2 ≠ k) :
    getSetting (setSetting k v s) k = v ∧
    getSetting (setSetting k v s) k2 = getSetting s k2 := by
  constructor
  · cases k <;> rfl
  · cases k <;> cases k2 <;> simp_all [getSetting, setSetting]

/-- Witness for the single-field update: setting ringModHz to 5 on the
clean preset leaves eqLow unchanged. -/
theorem setSetting_complete_update_witness :
    SettingKey.eqLow ≠ SettingKey.ringModHz ∧
    (getSetting (setSetting SettingKey.ringModHz 5 (PRESETS PresetId.clean))
        SettingKey.ringModHz = 5 ∧
      getSetting (setSetting SettingKey.ringModHz 5 (PRESETS PresetId.clean))
        SettingKey.eqLow = getSetting (PRESETS PresetId.clean) SettingKey.eqLow) :=
  ⟨by decide,
    setSetting_complete_update SettingKey.ringModHz SettingKey.eqLow 5
      (PRESETS PresetId.clean) (by decide)⟩
